import Mathlib

/-!
# Verification of the transform-gizmo interaction and transform-math engine

Shallow embedding of the core of the `transform-gizmo` crate
(`src/crates/transform-gizmo/src/config.rs` and
`src/crates/transform-gizmo/src/gizmo.rs`).

The crate's numeric work is done in `f64` via the `glam` vector library.
Here the numbers are embedded as rationals (`ℚ`): every operation the
claims touch (vector addition, component-wise products, quaternion
products, quaternion-vector rotation, arithmetic means) is a polynomial
or a division by a target count, all of which are exact over `ℚ`.  The
trigonometric functions used by `DQuat::from_axis_angle` are taken as
parameters (`sn`, `cs`), since no claim depends on their values.

Derived floating-point render state of `PreparedGizmoConfig`
(`view_projection`, `model_matrix`, `mvp`, `scale_factor`,
`focus_distance`, `left_handed`, `eye_to_model_dir`) is computed by
`glam` matrix code and `math.rs` helpers that are outside the embedded
fragment and referenced by no claim; those fields are omitted from the
embedded record.  The `viewport: Rect` field is represented by the only
fact the orchestrator reads from it, the boolean `viewport.is_finite()`.
-/

namespace TransformGizmo

/-- `glam::DVec3`: a 3-component vector (components embedded as `ℚ`). -/
structure Vec3 where
  x : ℚ
  y : ℚ
  z : ℚ
deriving DecidableEq, Repr

namespace Vec3

/-- `DVec3::ZERO`. -/
def zero : Vec3 := ⟨0, 0, 0⟩

/-- `DVec3::ONE`. -/
def one : Vec3 := ⟨1, 1, 1⟩

/-- Component-wise addition (`DVec3 + DVec3`). -/
def add (a b : Vec3) : Vec3 := ⟨a.x + b.x, a.y + b.y, a.z + b.z⟩

instance : Add Vec3 := ⟨Vec3.add⟩

/-- Component-wise subtraction (`DVec3 - DVec3`). -/
def sub (a b : Vec3) : Vec3 := ⟨a.x - b.x, a.y - b.y, a.z - b.z⟩

instance : Sub Vec3 := ⟨Vec3.sub⟩

/-- Component-wise multiplication (`DVec3 * DVec3`). -/
def mul (a b : Vec3) : Vec3 := ⟨a.x * b.x, a.y * b.y, a.z * b.z⟩

instance : Mul Vec3 := ⟨Vec3.mul⟩

/-- Multiplication by a scalar (`DVec3 * f64`). -/
def smul (a : Vec3) (s : ℚ) : Vec3 := ⟨a.x * s, a.y * s, a.z * s⟩

/-- Division by a scalar (`DVec3 / f64`); in `update_for_targets` the
scalar is the target count cast to `f64`. -/
def sdiv (a : Vec3) (s : ℚ) : Vec3 := ⟨a.x / s, a.y / s, a.z / s⟩

/-- `DVec3::dot`. -/
def dot (a b : Vec3) : ℚ := a.x * b.x + a.y * b.y + a.z * b.z

/-- `DVec3::cross`. -/
def cross (a b : Vec3) : Vec3 :=
  ⟨a.y * b.z - a.z * b.y, a.z * b.x - a.x * b.z, a.x * b.y - a.y * b.x⟩

end Vec3

/-- `glam::DQuat`: a quaternion `x*i + y*j + z*k + w`. -/
structure Quat where
  x : ℚ
  y : ℚ
  z : ℚ
  w : ℚ
deriving DecidableEq, Repr

namespace Quat

/-- `DQuat::IDENTITY`. -/
def identity : Quat := ⟨0, 0, 0, 1⟩

/-- `DQuat::mul_quat` (the Hamilton product, in glam's component order). -/
def mul (a b : Quat) : Quat :=
  ⟨a.w * b.x + a.x * b.w + a.y * b.z - a.z * b.y,
   a.w * b.y - a.x * b.z + a.y * b.w + a.z * b.x,
   a.w * b.z + a.x * b.y - a.y * b.x + a.z * b.w,
   a.w * b.w - a.x * b.x - a.y * b.y - a.z * b.z⟩

instance : Mul Quat := ⟨Quat.mul⟩

/-- `DQuat::mul_vec3` (`DQuat * DVec3`): glam's polynomial rotation
formula `v*(w² − b·b) + b*(2(v·b)) + (b×v)*(2w)` for a unit quaternion
with vector part `b`. -/
def mulVec3 (q : Quat) (v : Vec3) : Vec3 :=
  let b : Vec3 := ⟨q.x, q.y, q.z⟩
  let b2 : ℚ := Vec3.dot b b
  Vec3.smul v (q.w * q.w - b2) + Vec3.smul b (Vec3.dot v b * 2) +
    Vec3.smul (Vec3.cross b v) (q.w * 2)

/-- `DQuat::from_axis_angle`: `sn`/`cs` stand for `f64::sin`/`f64::cos`
applied to half the angle; they are parameters because no claim depends
on trigonometric values. -/
def from_axis_angle (sn cs : ℚ → ℚ) (axis : Vec3) (angle : ℚ) : Quat :=
  ⟨axis.x * sn (angle / 2), axis.y * sn (angle / 2), axis.z * sn (angle / 2),
   cs (angle / 2)⟩

end Quat

/-- `math::Transform`: `{ scale, rotation, translation }`. -/
structure Transform where
  scale : Vec3
  rotation : Quat
  translation : Vec3
deriving DecidableEq, Repr

/-- `GizmoMode`: operation mode of a gizmo. -/
inductive GizmoMode
  | Rotate
  | Translate
  | Scale
deriving DecidableEq, Repr

/-- `EnumSet<GizmoMode>`: which of the three modes are enabled.
Iteration order of `enumset` is declaration order
(Rotate, Translate, Scale). -/
structure ModeSet where
  rotate : Bool
  translate : Bool
  scale : Bool
deriving DecidableEq, Repr

namespace ModeSet

/-- `EnumSet::contains`. -/
def contains (m : ModeSet) (mode : GizmoMode) : Bool :=
  match mode with
  | GizmoMode.Rotate => m.rotate
  | GizmoMode.Translate => m.translate
  | GizmoMode.Scale => m.scale

/-- `EnumSet::len`: number of enabled modes. -/
def len (m : ModeSet) : Nat :=
  (if m.rotate then 1 else 0) + (if m.translate then 1 else 0) +
    (if m.scale then 1 else 0)

end ModeSet

instance : Membership GizmoMode ModeSet :=
  ⟨fun m mode => m.contains mode = true⟩

/-- `TransformPivotPoint`: the point in space around which all rotations
are centered. -/
inductive TransformPivotPoint
  | MedianPoint
  | IndividualOrigins
deriving DecidableEq, Repr

/-- `GizmoOrientation`: orientation of a gizmo. -/
inductive GizmoOrientation
  | Global
  | Local
deriving DecidableEq, Repr

/-- `GizmoDirection`. -/
inductive GizmoDirection
  | X
  | Y
  | Z
  | View
deriving DecidableEq, Repr

/-- `AxisConfig`: per-direction visibility flags. -/
structure AxisConfig where
  x : Bool
  y : Bool
  z : Bool
  view : Bool
deriving DecidableEq, Repr

namespace AxisConfig

/-- `AxisConfig::is_active`. -/
def is_active (c : AxisConfig) (direction : GizmoDirection) : Bool :=
  match direction with
  | GizmoDirection.X => c.x
  | GizmoDirection.Y => c.y
  | GizmoDirection.Z => c.z
  | GizmoDirection.View => c.view

/-- `AxisConfig::default` (all directions visible). -/
def default : AxisConfig := ⟨true, true, true, true⟩

end AxisConfig

/-- `GizmoVisibility`: visibility of sub gizmo primitives. -/
structure GizmoVisibility where
  translation_arrow : AxisConfig
  translation_plane : AxisConfig
  scaling_arrow : AxisConfig
  scaling_plane : AxisConfig
  rotation_arc : AxisConfig
  rotation_arc_ball : Bool
deriving DecidableEq, Repr

/-- `GizmoVisibility::default`. -/
def GizmoVisibility.default : GizmoVisibility :=
  ⟨AxisConfig.default, AxisConfig.default, AxisConfig.default,
   AxisConfig.default, AxisConfig.default, true⟩

/-- `GizmoConfig`, restricted to the fields the embedded orchestrator
fragment reads.  Omitted: `view_matrix`, `projection_matrix` (raw `f64`
matrices consumed only by the derived matrix fields), the numeric
`viewport` rectangle (represented by `viewport_is_finite`, the only fact
the orchestrator reads from it), `snapping`/`snap_angle`/
`snap_distance`/`snap_scale` and `visuals`/`pixels_per_point` (consumed
only by subgizmo internals and drawing code outside this fragment). -/
structure GizmoConfig where
  viewport_is_finite : Bool
  modes : ModeSet
  orientation : GizmoOrientation
  pivot_point : TransformPivotPoint
  gizmo_visibility : GizmoVisibility
deriving DecidableEq, Repr

/-- `GizmoConfig::orientation()` (named `orientation_eff` here because
the Lean structure field already uses the name `orientation`):
whenever `Scale` mode is enabled the configured orientation is ignored
and `Local` is used. -/
def GizmoConfig.orientation_eff (c : GizmoConfig) : GizmoOrientation :=
  if c.modes.contains GizmoMode.Scale then
    GizmoOrientation.Local
  else
    c.orientation

/-- `PreparedGizmoConfig`: the owned `GizmoConfig` plus the aggregate
target transform.  The derived matrix/scalar fields are omitted (see the
file header). -/
structure PreparedGizmoConfig where
  config : GizmoConfig
  rotation : Quat
  translation : Vec3
  scale : Vec3
deriving DecidableEq, Repr

namespace PreparedGizmoConfig

/-- `PreparedGizmoConfig::update_transform`: stores the given transform
as the gizmo's aggregate transform.  (The source additionally recomputes
`model_matrix`, `mvp`, `scale_factor`, `focus_distance` and
`eye_to_model_dir` from it; those derived fields are omitted here, see
the file header.) -/
def update_transform (c : PreparedGizmoConfig) (t : Transform) :
    PreparedGizmoConfig :=
  { c with
    translation := t.translation
    rotation := t.rotation
    scale := t.scale }

/-- Loop accumulator of `update_for_targets`: the running scale and
translation sums, the rotation of the last processed target, and the
target count. -/
structure TargetAcc where
  scale : Vec3
  translation : Vec3
  rotation : Quat
  target_count : Nat
deriving DecidableEq, Repr

/-- One iteration of the `for target in targets` loop of
`update_for_targets`. -/
def targetStep (acc : TargetAcc) (target : Transform) : TargetAcc :=
  { scale := acc.scale + target.scale
    translation := acc.translation + target.translation
    rotation := target.rotation
    target_count := acc.target_count + 1 }

/-- `PreparedGizmoConfig::update_for_targets`: accumulates scale and
translation sums and the last rotation over the targets; with zero
targets the scale defaults to `ONE`, otherwise translation and scale are
divided by the target count; the result is stored via
`update_transform`. -/
def update_for_targets (c : PreparedGizmoConfig) (targets : List Transform) :
    PreparedGizmoConfig :=
  let acc := targets.foldl targetStep
    ⟨Vec3.zero, Vec3.zero, Quat.identity, 0⟩
  if acc.target_count = 0 then
    c.update_transform
      ⟨Vec3.one, acc.rotation, acc.translation⟩
  else
    c.update_transform
      ⟨acc.scale.sdiv acc.target_count,
       acc.rotation,
       acc.translation.sdiv acc.target_count⟩

/-- `PreparedGizmoConfig::as_transform`. -/
def as_transform (c : PreparedGizmoConfig) : Transform :=
  ⟨c.scale, c.rotation, c.translation⟩

end PreparedGizmoConfig

/-- `GizmoResult`: result of a gizmo transformation. -/
inductive GizmoResult
  | Rotation (axis : Vec3) (delta : ℚ) (total : ℚ) (is_view_axis : Bool)
  | Translation (delta : Vec3) (total : Vec3)
  | Scale (total : Vec3)
  | Arcball (delta : Quat) (total : Quat)
deriving DecidableEq, Repr

namespace Gizmo

/-- `Gizmo::update_rotation_quat`: folds a rotation delta quaternion
into a target transform.  Under `MedianPoint` the translation revolves
about the prepared config's aggregate translation; under
`IndividualOrigins` it is unchanged.  The new rotation is
`delta * old rotation`; scale is passed through. -/
def update_rotation_quat (config : PreparedGizmoConfig) (transform : Transform)
    (delta : Quat) : Transform :=
  let translation : Vec3 :=
    match config.config.pivot_point with
    | TransformPivotPoint.MedianPoint =>
        config.translation +
          delta.mulVec3 (transform.translation - config.translation)
    | TransformPivotPoint.IndividualOrigins => transform.translation
  { scale := transform.scale
    rotation := delta * transform.rotation
    translation := translation }

/-- `Gizmo::update_rotation`: converts an axis-angle rotation result to
a delta quaternion (rotating the axis into the target's local frame when
the effective orientation is `Local` and the axis is not the view axis)
and folds it in via `update_rotation_quat`.  `sn`/`cs` stand for the
`f64` sine/cosine used by `DQuat::from_axis_angle`. -/
def update_rotation (sn cs : ℚ → ℚ) (config : PreparedGizmoConfig)
    (transform : Transform) (axis : Vec3) (delta : ℚ) (is_view_axis : Bool) :
    Transform :=
  let axis2 : Vec3 :=
    if config.config.orientation_eff = GizmoOrientation.Local &&
        !is_view_axis then
      transform.rotation.mulVec3 axis
    else
      axis
  let delta_q := Quat.from_axis_angle sn cs axis2 delta
  update_rotation_quat config transform delta_q

/-- `Gizmo::update_translation`: folds a translation delta into a target
transform.  The delta is rotated by the start-of-drag rotation when the
effective orientation is `Local`, used as-is when `Global`, and added to
the (current) transform's translation; scale and rotation of the result
are taken from the start transform. -/
def update_translation (config : PreparedGizmoConfig) (delta : Vec3)
    (transform start_transform : Transform) : Transform :=
  let delta2 : Vec3 :=
    match config.config.orientation_eff with
    | GizmoOrientation.Global => delta
    | GizmoOrientation.Local => start_transform.rotation.mulVec3 delta
  { scale := start_transform.scale
    rotation := start_transform.rotation
    translation := delta2 + transform.translation }

/-- `Gizmo::update_scale`: the new scale is the start-of-drag scale
multiplied component-wise by the total scale factor; rotation and
translation are taken from the (current) transform. -/
def update_scale (transform start_transform : Transform) (scale : Vec3) :
    Transform :=
  { scale := start_transform.scale * scale
    rotation := transform.rotation
    translation := transform.translation }

/-- `Gizmo::update_transforms_with_result`: folds one result into every
(current, start) transform pair. -/
def update_transforms_with_result (sn cs : ℚ → ℚ)
    (config : PreparedGizmoConfig) (result : GizmoResult)
    (transforms start_transforms : List Transform) : List Transform :=
  (transforms.zip start_transforms).map fun p =>
    match result with
    | GizmoResult.Rotation axis delta _total is_view_axis =>
        update_rotation sn cs config p.1 axis delta is_view_axis
    | GizmoResult.Translation delta _total =>
        update_translation config delta p.1 p.2
    | GizmoResult.Scale total =>
        update_scale p.1 p.2 total
    | GizmoResult.Arcball delta _total =>
        update_rotation_quat config p.1 delta

end Gizmo

/-- `subgizmo::common::TransformKind`. -/
inductive TransformKind
  | Axis
  | Plane
deriving DecidableEq, Repr

/-- The static identity of a subgizmo: which variant it is and with which
parameters it was constructed (`RotationParams`, `TranslationParams`,
`ScaleParams`, or the arcball's `()`). -/
inductive SubGizmoKind
  | rotationSub (direction : GizmoDirection)
  | arcballSub
  | translationSub (direction : GizmoDirection) (transform_kind : TransformKind)
  | scaleSub (direction : GizmoDirection) (transform_kind : TransformKind)
deriving DecidableEq, Repr

namespace Gizmo

/-- `Gizmo::add_rotation`: one rotation arc per direction whose
`rotation_arc` visibility flag is set, plus the arcball when
`rotation_arc_ball` is set. -/
def add_rotation (vis : GizmoVisibility) : List SubGizmoKind :=
  (([GizmoDirection.X, GizmoDirection.Y, GizmoDirection.Z,
     GizmoDirection.View].filter fun direction =>
      vis.rotation_arc.is_active direction).map fun direction =>
        SubGizmoKind.rotationSub direction) ++
  (if vis.rotation_arc_ball then [SubGizmoKind.arcballSub] else [])

/-- `Gizmo::add_translation`: the arrow group (X/Y/Z axis handles and the
View plane handle) gated by `translation_arrow`; the X/Y/Z plane handles,
gated by `translation_plane`, are added only when `Scale` mode is not
enabled. -/
def add_translation (modes : ModeSet) (vis : GizmoVisibility) :
    List SubGizmoKind :=
  (([(GizmoDirection.X, TransformKind.Axis),
     (GizmoDirection.Y, TransformKind.Axis),
     (GizmoDirection.Z, TransformKind.Axis),
     (GizmoDirection.View, TransformKind.Plane)].filter fun p =>
      vis.translation_arrow.is_active p.1).map fun p =>
        SubGizmoKind.translationSub p.1 p.2) ++
  (if !(modes.contains GizmoMode.Scale) then
    ([(GizmoDirection.X, TransformKind.Plane),
      (GizmoDirection.Y, TransformKind.Plane),
      (GizmoDirection.Z, TransformKind.Plane)].filter fun p =>
       vis.translation_plane.is_active p.1).map fun p =>
         SubGizmoKind.translationSub p.1 p.2
  else [])

/-- `Gizmo::add_scale`: X/Y/Z axis handles gated by `scaling_arrow`; the
uniform-scale View plane handle when exactly one mode is enabled and
`scaling_plane.view` is set; the X/Y/Z plane handles — gated by
`translation_plane` in the source, not `scaling_plane` — only when
`Translate` mode is not enabled. -/
def add_scale (modes : ModeSet) (vis : GizmoVisibility) :
    List SubGizmoKind :=
  (([(GizmoDirection.X, TransformKind.Axis),
     (GizmoDirection.Y, TransformKind.Axis),
     (GizmoDirection.Z, TransformKind.Axis)].filter fun p =>
      vis.scaling_arrow.is_active p.1).map fun p =>
        SubGizmoKind.scaleSub p.1 p.2) ++
  (if modes.len = 1 && vis.scaling_plane.view then
    [SubGizmoKind.scaleSub GizmoDirection.View TransformKind.Plane]
  else []) ++
  (if !(modes.contains GizmoMode.Translate) then
    ([(GizmoDirection.X, TransformKind.Plane),
      (GizmoDirection.Y, TransformKind.Plane),
      (GizmoDirection.Z, TransformKind.Plane)].filter fun p =>
       vis.translation_plane.is_active p.1).map fun p =>
         SubGizmoKind.scaleSub p.1 p.2
  else [])

/-- The subgizmo rebuild loop of `Gizmo::update_config`
(`for mode in self.config.modes { ... }`): `enumset` iterates in
declaration order Rotate, Translate, Scale. -/
def build_subgizmos (modes : ModeSet) (vis : GizmoVisibility) :
    List SubGizmoKind :=
  (if modes.rotate then add_rotation vis else []) ++
  (if modes.translate then add_translation modes vis else []) ++
  (if modes.scale then add_scale modes vis else [])

end Gizmo

/-- `GizmoDrawData`: flat draw buffers.  Vertex positions and colors are
`f32` payloads never inspected by the concatenation code, so they are
embedded as type parameters; indices are `u32`, embedded as `ℕ` with the
`% 2^32` of `u32` arithmetic made explicit (`4294967296 = 2^32`). -/
structure GizmoDrawData (V C : Type) where
  vertices : List V
  colors : List C
  indices : List Nat
deriving Repr

namespace GizmoDrawData

/-- A draw-data value whose indices are representable `u32` values. -/
def wf {V C : Type} (d : GizmoDrawData V C) : Prop :=
  ∀ i ∈ d.indices, i < 4294967296

/-- The index buffer references only valid positions of the own vertex
buffer. -/
def valid {V C : Type} (d : GizmoDrawData V C) : Prop :=
  ∀ i ∈ d.indices, i < d.vertices.length

instance {V C : Type} (d : GizmoDrawData V C) : Decidable d.wf :=
  inferInstanceAs (Decidable (∀ i ∈ d.indices, i < 4294967296))

instance {V C : Type} (d : GizmoDrawData V C) : Decidable d.valid :=
  inferInstanceAs (Decidable (∀ i ∈ d.indices, i < d.vertices.length))

/-- `impl AddAssign for GizmoDrawData`: concatenates vertex and color
buffers and appends the right operand's indices shifted by the left
operand's vertex count (`self.vertices.len() as u32` followed by `u32`
addition, hence the two `% 2^32`). -/
def add_assign {V C : Type} (a b : GizmoDrawData V C) : GizmoDrawData V C :=
  let index_offset : Nat := a.vertices.length % 4294967296
  { vertices := a.vertices ++ b.vertices
    colors := a.colors ++ b.colors
    indices := a.indices ++ b.indices.map fun idx => (index_offset + idx) % 4294967296 }

instance {V C : Type} : Add (GizmoDrawData V C) := ⟨add_assign⟩

/-- `GizmoDrawData::default`: all three buffers empty. -/
def empty {V C : Type} : GizmoDrawData V C := ⟨[], [], []⟩

end GizmoDrawData

/-- `GizmoInteraction`: pointer state for one frame.  (`cursor_pos` only
feeds the pointer ray, which is consumed by the subgizmo pick/update
code outside the embedded fragment; it is therefore dropped here and the
pick/update outcomes are taken as parameters of `Gizmo.update`.) -/
structure GizmoInteraction where
  drag_started : Bool
  dragging : Bool
deriving DecidableEq, Repr

/-- The orchestrator-visible state of one subgizmo: its id, the last
received prepared config (`update_config`) and the focused/active flags
(`set_focused`/`set_active`).  The variant-specific drag math lives in
the subgizmo modules outside the embedded fragment. -/
structure SubGizmoState where
  id : Nat
  cfg : PreparedGizmoConfig
  focused : Bool
  active : Bool
deriving DecidableEq, Repr

/-- `Gizmo`: the orchestrator's own fields. -/
structure GizmoState where
  config : PreparedGizmoConfig
  subgizmos : List SubGizmoState
  active_subgizmo_id : Option Nat
  target_start_transforms : List Transform
  gizmo_start_transform : Transform
deriving DecidableEq, Repr

namespace Gizmo

/-- `Gizmo::update_config_with_result`: folds the result into the
gizmo's own pivot transform (element `[0]` of a one-element call to
`update_transforms_with_result`) and stores it with
`update_transform`. -/
def update_config_with_result (sn cs : ℚ → ℚ) (g : GizmoState)
    (result : GizmoResult) : GizmoState :=
  let new_config_transform :=
    (update_transforms_with_result sn cs g.config result
      [g.config.as_transform] [g.gizmo_start_transform]).headD
      g.config.as_transform
  { g with config := g.config.update_transform new_config_transform }

/-- `Gizmo::update`, the per-frame picking/drag state machine of
`gizmo.rs`.  The two calls into subgizmo code that is outside the
embedded fragment are passed in as parameters: `pick?` is the id of the
subgizmo `pick_subgizmo(pointer_ray)` would return (`none` when nothing
is under the pointer), and `upd?` is the value the active subgizmo's
`update(pointer_ray)` would return.  Returns the new orchestrator state
together with the `Option<(GizmoResult, Vec<Transform>)>` of the
source. -/
def update (sn cs : ℚ → ℚ) (g : GizmoState) (interaction : GizmoInteraction)
    (targets : List Transform) (pick? : Option Nat)
    (upd? : Option GizmoResult) :
    GizmoState × Option (GizmoResult × List Transform) :=
  if !g.config.config.viewport_is_finite then (g, none) else
  -- `if self.active_subgizmo_id.is_none() { self.config.update_for_targets(targets) }`
  let cfg0 :=
    if g.active_subgizmo_id.isNone then g.config.update_for_targets targets
    else g.config
  -- `for subgizmo { update_config(config); set_focused(false) }`
  let subs0 := g.subgizmos.map fun s => { s with cfg := cfg0, focused := false }
  -- pick phase, only when no subgizmo is active
  let g1 : GizmoState :=
    match g.active_subgizmo_id, pick? with
    | none, some pid =>
      let subsF := subs0.map fun s =>
        if s.id = pid then { s with focused := true } else s
      if interaction.drag_started then
        { config := cfg0, subgizmos := subsF, active_subgizmo_id := some pid
          target_start_transforms := targets
          gizmo_start_transform := cfg0.as_transform }
      else
        { g with config := cfg0, subgizmos := subsF }
    | _, _ => { g with config := cfg0, subgizmos := subs0 }
  -- drag phase: `if let Some(subgizmo) = self.active_subgizmo_mut()`
  let found :=
    g1.active_subgizmo_id.bind fun i =>
      if g1.subgizmos.any fun s => s.id = i then some i else none
  let step2 : GizmoState × Option GizmoResult :=
    match found with
    | some i =>
      if interaction.dragging then
        ({ g1 with subgizmos := g1.subgizmos.map fun s =>
            if s.id = i then { s with active := true, focused := true } else s },
         upd?)
      else
        ({ g1 with
            subgizmos := g1.subgizmos.map fun s =>
              if s.id = i then { s with active := false, focused := false }
              else s
            active_subgizmo_id := none },
         none)
    | none => (g1, none)
  match step2 with
  | (g2, none) =>
    -- `let Some(result) = result else { ... return None }`
    let cfg2 := g2.config.update_for_targets targets
    ({ g2 with
        config := cfg2
        subgizmos := g2.subgizmos.map fun s => { s with cfg := cfg2 } },
     none)
  | (g2, some result) =>
    let g3 := update_config_with_result sn cs g2 result
    let updated_targets := update_transforms_with_result sn cs g3.config
      result targets g3.target_start_transforms
    (g3, some (result, updated_targets))

end Gizmo

end TransformGizmo

/-! ## Helper lemmas about the embedded vector algebra -/

namespace TransformGizmo

theorem Vec3.add_zero (a : Vec3) : a + Vec3.zero = a := by
  cases a
  show Vec3.add _ Vec3.zero = _
  simp [Vec3.add, Vec3.zero]

theorem Vec3.zero_add (a : Vec3) : Vec3.zero + a = a := by
  cases a
  show Vec3.add Vec3.zero _ = _
  simp [Vec3.add, Vec3.zero]

theorem Vec3.add_assoc (a b c : Vec3) : a + b + c = a + (b + c) := by
  cases a; cases b; cases c
  show Vec3.add (Vec3.add _ _) _ = Vec3.add _ (Vec3.add _ _)
  simp [Vec3.add]
  constructor
  · ring
  constructor
  · ring
  · ring

/-- Sum of the targets' scale vectors. -/
def sumScales : List Transform → Vec3
  | [] => Vec3.zero
  | t :: ts => t.scale + sumScales ts

/-- Sum of the targets' translation vectors. -/
def sumTranslations : List Transform → Vec3
  | [] => Vec3.zero
  | t :: ts => t.translation + sumTranslations ts

/-- Rotation of the last target, or the given one for an empty list. -/
def lastRotation (r : Quat) : List Transform → Quat
  | [] => r
  | t :: ts => lastRotation t.rotation ts

theorem foldl_targetStep (ts : List Transform)
    (acc : PreparedGizmoConfig.TargetAcc) :
    ts.foldl PreparedGizmoConfig.targetStep acc =
      { scale := acc.scale + sumScales ts
        translation := acc.translation + sumTranslations ts
        rotation := lastRotation acc.rotation ts
        target_count := acc.target_count + ts.length } := by
  induction ts generalizing acc with
  | nil =>
    simp [sumScales, sumTranslations, lastRotation, Vec3.add_zero]
  | cons t ts ih =>
    rw [List.foldl_cons, ih]
    simp [PreparedGizmoConfig.targetStep, sumScales, sumTranslations,
      lastRotation, Vec3.add_assoc]
    omega

theorem lastRotation_getLast (ts : List Transform) (h : ts ≠ []) (r : Quat) :
    lastRotation r ts = (ts.getLast h).rotation := by
  induction ts generalizing r with
  | nil => exact absurd rfl h
  | cons t ts ih =>
    cases ts with
    | nil => rfl
    | cons u us => exact ih (List.cons_ne_nil u us) t.rotation

/-! ## Shared concrete example values -/

/-- A concrete prepared config: Rotate mode only, Global orientation,
MedianPoint pivot, a non-zero aggregate translation and a non-identity
aggregate rotation. -/
def cfgEx : PreparedGizmoConfig :=
  { config :=
      { viewport_is_finite := true
        modes := ⟨true, false, false⟩
        orientation := GizmoOrientation.Global
        pivot_point := TransformPivotPoint.MedianPoint
        gizmo_visibility := GizmoVisibility.default }
    rotation := ⟨1, 0, 0, 0⟩
    translation := ⟨1, 2, 3⟩
    scale := ⟨1, 1, 1⟩ }

/-- Like `cfgEx` but with `IndividualOrigins` pivot. -/
def cfgExIndiv : PreparedGizmoConfig :=
  { cfgEx with config := { cfgEx.config with
      pivot_point := TransformPivotPoint.IndividualOrigins } }

/-- Like `cfgEx` but with `Local` orientation. -/
def cfgExLocal : PreparedGizmoConfig :=
  { cfgEx with config := { cfgEx.config with
      orientation := GizmoOrientation.Local } }

/-- A concrete target transform. -/
def tEx : Transform := ⟨⟨1, 1, 1⟩, ⟨0, 0, 0, 1⟩, ⟨5, 0, 0⟩⟩

/-- A second concrete target transform, with a rotation different from
`tEx`'s. -/
def tEx2 : Transform := ⟨⟨3, 1, 1⟩, ⟨0, 1, 0, 0⟩, ⟨1, 2, 0⟩⟩

/-! ## C1 -/

/-- C1, amended: after `update_for_targets` with an empty target list the
aggregate scale is the unit scale, and the aggregate translation and
rotation are reset to the zero vector and the identity quaternion (the
loop accumulators' initial values) — they are not left at their previous
values. -/
theorem C1_empty_targets_resets_aggregate (c : PreparedGizmoConfig) :
    (c.update_for_targets []).scale = Vec3.one ∧
    (c.update_for_targets []).translation = Vec3.zero ∧
    (c.update_for_targets []).rotation = Quat.identity :=
  ⟨rfl, rfl, rfl⟩

/-- C1, counterexample to the claim as stated: for a prepared config with
aggregate translation `(1,2,3)` and a non-identity aggregate rotation,
`update_for_targets []` does not leave translation and rotation at their
previous values. -/
theorem C1_counterexample :
    (cfgEx.update_for_targets []).scale = Vec3.one ∧
    (cfgEx.update_for_targets []).translation ≠ cfgEx.translation ∧
    (cfgEx.update_for_targets []).rotation ≠ cfgEx.rotation := by
  decide

/-! ## C2 -/

/-- C2, amended: folding a translation delta into a target adds the delta
— rotated by the drag-start rotation when the effective orientation is
`Local`, used as-is when `Global` — to the target's current translation;
the resulting rotation and scale are taken from the start-of-drag
transform (not from the current transform). -/
theorem C2_translation_folding (config : PreparedGizmoConfig) (delta : Vec3)
    (transform start_transform : Transform) :
    (config.config.orientation_eff = GizmoOrientation.Global →
      (Gizmo.update_translation config delta transform
        start_transform).translation = delta + transform.translation) ∧
    (config.config.orientation_eff = GizmoOrientation.Local →
      (Gizmo.update_translation config delta transform
        start_transform).translation =
        start_transform.rotation.mulVec3 delta + transform.translation) ∧
    (Gizmo.update_translation config delta transform
      start_transform).rotation = start_transform.rotation ∧
    (Gizmo.update_translation config delta transform
      start_transform).scale = start_transform.scale := by
  refine ⟨fun h => ?_, fun h => ?_, rfl, rfl⟩ <;>
    simp [Gizmo.update_translation, h]

/-- C2, witness: the amended theorem applied at concrete inputs, once
with a `Global`-orientation config and once with a `Local` one. -/
theorem C2_translation_folding_witness :
    ((Gizmo.update_translation cfgEx ⟨1, 0, 0⟩ tEx tEx2).translation =
      ⟨1, 0, 0⟩ + tEx.translation) ∧
    ((Gizmo.update_translation cfgExLocal ⟨1, 0, 0⟩ tEx tEx2).translation =
      tEx2.rotation.mulVec3 ⟨1, 0, 0⟩ + tEx.translation) ∧
    (Gizmo.update_translation cfgEx ⟨1, 0, 0⟩ tEx tEx2).rotation =
      tEx2.rotation :=
  ⟨(C2_translation_folding cfgEx ⟨1, 0, 0⟩ tEx tEx2).1 (by decide),
   (C2_translation_folding cfgExLocal ⟨1, 0, 0⟩ tEx tEx2).2.1 (by decide),
   (C2_translation_folding cfgEx ⟨1, 0, 0⟩ tEx tEx2).2.2.1⟩

/-- C2, counterexample to the claim as stated: with a current transform
whose rotation differs from the start-of-drag rotation, the folded
result's rotation is the start-of-drag rotation, so the current
rotation does not pass through unchanged. -/
theorem C2_counterexample :
    (Gizmo.update_translation cfgEx ⟨1, 0, 0⟩ tEx tEx2).rotation ≠
      tEx.rotation := by
  decide

/-! ## C3 -/

/-- C3: folding a rotation delta quaternion into a target yields
rotation `delta * old`, an unchanged scale, and a translation that under
`MedianPoint` pivots about the prepared config's aggregate translation
(`pivot + delta·(old_translation − pivot)`) and under
`IndividualOrigins` is unchanged. -/
theorem C3_rotation_quat_folding (config : PreparedGizmoConfig)
    (transform : Transform) (delta : Quat) :
    (Gizmo.update_rotation_quat config transform delta).rotation =
      delta * transform.rotation ∧
    (Gizmo.update_rotation_quat config transform delta).scale =
      transform.scale ∧
    (config.config.pivot_point = TransformPivotPoint.MedianPoint →
      (Gizmo.update_rotation_quat config transform delta).translation =
        config.translation +
          delta.mulVec3 (transform.translation - config.translation)) ∧
    (config.config.pivot_point = TransformPivotPoint.IndividualOrigins →
      (Gizmo.update_rotation_quat config transform delta).translation =
        transform.translation) := by
  refine ⟨rfl, rfl, fun h => ?_, fun h => ?_⟩ <;>
    simp [Gizmo.update_rotation_quat, h]

/-- C3, witness: the theorem applied at concrete inputs, once with a
`MedianPoint`-pivot config and once with an `IndividualOrigins` one. -/
theorem C3_rotation_quat_folding_witness :
    ((Gizmo.update_rotation_quat cfgEx tEx ⟨0, 0, 0, -1⟩).translation =
      cfgEx.translation +
        Quat.mulVec3 ⟨0, 0, 0, -1⟩ (tEx.translation - cfgEx.translation)) ∧
    ((Gizmo.update_rotation_quat cfgExIndiv tEx ⟨0, 0, 0, -1⟩).translation =
      tEx.translation) ∧
    (Gizmo.update_rotation_quat cfgEx tEx ⟨0, 0, 0, -1⟩).rotation =
      Quat.mul ⟨0, 0, 0, -1⟩ tEx.rotation :=
  ⟨(C3_rotation_quat_folding cfgEx tEx ⟨0, 0, 0, -1⟩).2.2.1 (by decide),
   (C3_rotation_quat_folding cfgExIndiv tEx ⟨0, 0, 0, -1⟩).2.2.2 (by decide),
   (C3_rotation_quat_folding cfgEx tEx ⟨0, 0, 0, -1⟩).1⟩

/-! ## C4 -/

/-- C4: folding a scale result multiplies the start-of-drag scale
component-wise by the total factor and passes the current rotation and
translation through unchanged; re-folding with a later total replaces
rather than compounds the earlier one (the second conjunct applies two
sequential frames with totals `t1` then `total`). -/
theorem C4_scale_folding (transform start_transform : Transform)
    (total t1 : Vec3) :
    Gizmo.update_scale transform start_transform total =
      { scale := start_transform.scale * total
        rotation := transform.rotation
        translation := transform.translation } ∧
    (Gizmo.update_scale (Gizmo.update_scale transform start_transform t1)
      start_transform total).scale = start_transform.scale * total :=
  ⟨rfl, rfl⟩

/-! ## C5 -/

/-- C5: for a non-empty target list, `update_for_targets` sets the
aggregate translation and scale to the arithmetic means of the targets'
translations and scales, and the aggregate rotation to the rotation of
the last target in the list. -/
theorem C5_nonempty_targets_aggregate (c : PreparedGizmoConfig)
    (ts : List Transform) (h : ts ≠ []) :
    (c.update_for_targets ts).translation =
      (sumTranslations ts).sdiv ts.length ∧
    (c.update_for_targets ts).scale = (sumScales ts).sdiv ts.length ∧
    (c.update_for_targets ts).rotation = (ts.getLast h).rotation := by
  have hlen : ts.length ≠ 0 := fun hl => h (List.length_eq_zero.mp hl)
  unfold PreparedGizmoConfig.update_for_targets
  rw [foldl_targetStep]
  simp only [Vec3.zero_add, Nat.zero_add, hlen, if_false,
    PreparedGizmoConfig.update_transform, lastRotation_getLast ts h]
  exact ⟨trivial, trivial, trivial⟩

/-- C5, witness: the theorem applied to a concrete two-target list. -/
theorem C5_nonempty_targets_aggregate_witness :
    ([tEx, tEx2] ≠ ([] : List Transform)) ∧
    ((cfgEx.update_for_targets [tEx, tEx2]).translation =
      (sumTranslations [tEx, tEx2]).sdiv 2 ∧
    (cfgEx.update_for_targets [tEx, tEx2]).scale =
      (sumScales [tEx, tEx2]).sdiv 2 ∧
    (cfgEx.update_for_targets [tEx, tEx2]).rotation = tEx2.rotation) :=
  ⟨by decide,
   C5_nonempty_targets_aggregate cfgEx [tEx, tEx2] (by decide)⟩

/-! ## C6 -/

/-- C6: the effective orientation is `Local` whenever `Scale` is among
the enabled modes, and equals the configured orientation otherwise. -/
theorem C6_scale_forces_local_orientation (c : GizmoConfig) :
    (c.modes.contains GizmoMode.Scale = true →
      c.orientation_eff = GizmoOrientation.Local) ∧
    (c.modes.contains GizmoMode.Scale = false →
      c.orientation_eff = c.orientation) := by
  constructor <;> intro h <;> simp [GizmoConfig.orientation_eff, h]

/-- C6, witness: the theorem applied to two concrete configs, one with
`Scale` enabled (configured `Global`, effective `Local`), one
without. -/
theorem C6_scale_forces_local_orientation_witness :
    ({ cfgEx.config with modes := ⟨false, false, true⟩ } :
      GizmoConfig).orientation_eff = GizmoOrientation.Local ∧
    cfgEx.config.orientation_eff = cfgEx.config.orientation :=
  ⟨(C6_scale_forces_local_orientation
      { cfgEx.config with modes := ⟨false, false, true⟩ }).1 (by decide),
   (C6_scale_forces_local_orientation cfgEx.config).2 (by decide)⟩

/-! ## Subgizmo construction: membership characterizations -/

theorem mem_build_rotationSub (m : ModeSet) (v : GizmoVisibility)
    (d : GizmoDirection) :
    SubGizmoKind.rotationSub d ∈ Gizmo.build_subgizmos m v ↔
      m.rotate = true ∧ v.rotation_arc.is_active d = true := by
  obtain ⟨mr, mt, ms⟩ := m
  cases d <;>
    simp [Gizmo.build_subgizmos, Gizmo.add_rotation, Gizmo.add_translation,
      Gizmo.add_scale, List.mem_append, List.mem_filter,
      List.mem_ite_nil_right, ModeSet.contains, AxisConfig.is_active]

theorem mem_build_arcballSub (m : ModeSet) (v : GizmoVisibility) :
    SubGizmoKind.arcballSub ∈ Gizmo.build_subgizmos m v ↔
      m.rotate = true ∧ v.rotation_arc_ball = true := by
  obtain ⟨mr, mt, ms⟩ := m
  simp [Gizmo.build_subgizmos, Gizmo.add_rotation, Gizmo.add_translation,
    Gizmo.add_scale, List.mem_append, List.mem_filter,
    List.mem_ite_nil_right, ModeSet.contains, AxisConfig.is_active]

theorem mem_build_translation_plane (m : ModeSet) (v : GizmoVisibility)
    (d : GizmoDirection) (hd : d ≠ GizmoDirection.View) :
    SubGizmoKind.translationSub d TransformKind.Plane ∈
        Gizmo.build_subgizmos m v ↔
      m.translate = true ∧ m.scale = false ∧
        v.translation_plane.is_active d = true := by
  obtain ⟨mr, mt, ms⟩ := m
  cases d <;> first
  | exact absurd rfl hd
  | cases ms <;>
      simp [Gizmo.build_subgizmos, Gizmo.add_rotation, Gizmo.add_translation,
        Gizmo.add_scale, List.mem_append, List.mem_filter,
        List.mem_ite_nil_right, ModeSet.contains, AxisConfig.is_active]

theorem mem_build_translation_view_plane (m : ModeSet) (v : GizmoVisibility) :
    SubGizmoKind.translationSub GizmoDirection.View TransformKind.Plane ∈
        Gizmo.build_subgizmos m v ↔
      m.translate = true ∧ v.translation_arrow.view = true := by
  obtain ⟨mr, mt, ms⟩ := m
  cases ms <;>
    simp [Gizmo.build_subgizmos, Gizmo.add_rotation, Gizmo.add_translation,
      Gizmo.add_scale, List.mem_append, List.mem_filter,
      List.mem_ite_nil_right, ModeSet.contains, AxisConfig.is_active]

theorem mem_build_scale_plane (m : ModeSet) (v : GizmoVisibility)
    (d : GizmoDirection) (hd : d ≠ GizmoDirection.View) :
    SubGizmoKind.scaleSub d TransformKind.Plane ∈
        Gizmo.build_subgizmos m v ↔
      m.scale = true ∧ m.translate = false ∧
        v.translation_plane.is_active d = true := by
  obtain ⟨mr, mt, ms⟩ := m
  cases d <;> first
  | exact absurd rfl hd
  | cases mt <;>
      simp [Gizmo.build_subgizmos, Gizmo.add_rotation, Gizmo.add_translation,
        Gizmo.add_scale, List.mem_append, List.mem_filter,
        List.mem_ite_nil_right, ModeSet.contains, AxisConfig.is_active]

theorem mem_build_scale_view_plane (m : ModeSet) (v : GizmoVisibility) :
    SubGizmoKind.scaleSub GizmoDirection.View TransformKind.Plane ∈
        Gizmo.build_subgizmos m v ↔
      m.scale = true ∧ m.len = 1 ∧ v.scaling_plane.view = true := by
  obtain ⟨mr, mt, ms⟩ := m
  cases mt <;>
    simp [Gizmo.build_subgizmos, Gizmo.add_rotation, Gizmo.add_translation,
      Gizmo.add_scale, List.mem_append, List.mem_filter,
      List.mem_ite_nil_right, ModeSet.contains, AxisConfig.is_active,
      Bool.and_eq_true, decide_eq_true_eq]

/-! ## C7 -/

/-- C7, amended: when both `Translate` and `Scale` are enabled, the
X/Y/Z plane-translation and plane-scale subgizmos are omitted — the
View-direction translation subgizmo, although constructed with
`TransformKind::Plane`, is still added according to the
`translation_arrow` visibility flag; the uniform-scale (View) subgizmo
appears only when `Scale` is the sole enabled mode; the arcball appears
exactly when `Rotate` is enabled and its visibility flag is set, and its
flag does not influence the per-axis rotation arcs, which appear exactly
when `Rotate` is enabled and their own flags are set. -/
theorem C7_subgizmo_construction_rules (m : ModeSet) (v : GizmoVisibility)
    (d : GizmoDirection) :
    (m.translate = true → m.scale = true → d ≠ GizmoDirection.View →
      SubGizmoKind.translationSub d TransformKind.Plane ∉
          Gizmo.build_subgizmos m v ∧
        SubGizmoKind.scaleSub d TransformKind.Plane ∉
          Gizmo.build_subgizmos m v) ∧
    (SubGizmoKind.scaleSub GizmoDirection.View TransformKind.Plane ∈
        Gizmo.build_subgizmos m v →
      m.scale = true ∧ m.rotate = false ∧ m.translate = false) ∧
    (SubGizmoKind.arcballSub ∈ Gizmo.build_subgizmos m v ↔
      m.rotate = true ∧ v.rotation_arc_ball = true) ∧
    (SubGizmoKind.rotationSub d ∈ Gizmo.build_subgizmos m v ↔
      m.rotate = true ∧ v.rotation_arc.is_active d = true) := by
  refine ⟨fun ht hs hd => ⟨fun hmem => ?_, fun hmem => ?_⟩,
    fun hmem => ?_, mem_build_arcballSub m v, mem_build_rotationSub m v d⟩
  · exact absurd ((mem_build_translation_plane m v d hd).mp hmem).2.1
      (by simp [hs])
  · exact absurd ((mem_build_scale_plane m v d hd).mp hmem).2.1
      (by simp [ht])
  · obtain ⟨hsc, hlen, -⟩ := (mem_build_scale_view_plane m v).mp hmem
    obtain ⟨mr, mt, ms⟩ := m
    simp only at hsc
    subst hsc
    cases mr <;> cases mt <;> simp_all [ModeSet.len]

/-- C7, witness: the amended theorem applied at concrete inputs — with
both `Translate` and `Scale` enabled the X plane handles are absent,
and with `Scale` alone enabled the uniform-scale handle's presence
forces the sole-mode shape. -/
theorem C7_subgizmo_construction_rules_witness :
    (SubGizmoKind.translationSub GizmoDirection.X TransformKind.Plane ∉
        Gizmo.build_subgizmos ⟨false, true, true⟩ GizmoVisibility.default ∧
      SubGizmoKind.scaleSub GizmoDirection.X TransformKind.Plane ∉
        Gizmo.build_subgizmos ⟨false, true, true⟩ GizmoVisibility.default) ∧
    ((⟨false, false, true⟩ : ModeSet).scale = true ∧
      (⟨false, false, true⟩ : ModeSet).rotate = false ∧
      (⟨false, false, true⟩ : ModeSet).translate = false) ∧
    (SubGizmoKind.arcballSub ∈
      Gizmo.build_subgizmos ⟨true, false, false⟩ GizmoVisibility.default) :=
  ⟨(C7_subgizmo_construction_rules ⟨false, true, true⟩ GizmoVisibility.default
      GizmoDirection.X).1 rfl rfl (by decide),
   (C7_subgizmo_construction_rules ⟨false, false, true⟩ GizmoVisibility.default
      GizmoDirection.X).2.1 (by decide),
   (C7_subgizmo_construction_rules ⟨true, false, false⟩ GizmoVisibility.default
      GizmoDirection.X).2.2.1.mpr (by decide)⟩

/-- C7, counterexample to the claim as stated: with both `Translate` and
`Scale` enabled and default visibility, the View-direction translation
subgizmo — a plane subgizmo (`TransformKind::Plane`) — is still
constructed, so plane-translation subgizmos are not all omitted. -/
theorem C7_counterexample :
    (⟨false, true, true⟩ : ModeSet).translate = true ∧
    (⟨false, true, true⟩ : ModeSet).scale = true ∧
    SubGizmoKind.translationSub GizmoDirection.View TransformKind.Plane ∈
      Gizmo.build_subgizmos ⟨false, true, true⟩ GizmoVisibility.default := by
  decide

/-! ## C10 -/

/-- C10: the X/Y/Z plane scale subgizmos are gated by the
`translation_plane` visibility flags (present exactly when `Scale` is
enabled, `Translate` is not, and the corresponding `translation_plane`
flag is set), and the `scaling_plane` x/y/z flags never affect which
subgizmos are constructed — rebuilding with them replaced by arbitrary
values yields the identical subgizmo list. -/
theorem C10_scaling_plane_xyz_flags_unused (m : ModeSet)
    (v : GizmoVisibility) (d : GizmoDirection) (b1 b2 b3 : Bool) :
    (d ≠ GizmoDirection.View →
      (SubGizmoKind.scaleSub d TransformKind.Plane ∈
          Gizmo.build_subgizmos m v ↔
        m.scale = true ∧ m.translate = false ∧
          v.translation_plane.is_active d = true)) ∧
    Gizmo.build_subgizmos m
        { v with scaling_plane :=
            { x := b1, y := b2, z := b3, view := v.scaling_plane.view } } =
      Gizmo.build_subgizmos m v := by
  refine ⟨fun hd => mem_build_scale_plane m v d hd, ?_⟩
  obtain ⟨ta, tp, sa, ⟨spx, spy, spz, spv⟩, ra, rb⟩ := v
  rfl

/-- C10, witness: the theorem applied at concrete inputs — with `Scale`
the sole mode and default visibility the X plane scale handle is
present, and zeroing the `scaling_plane` x/y/z flags leaves the built
list unchanged. -/
theorem C10_scaling_plane_xyz_flags_unused_witness :
    (SubGizmoKind.scaleSub GizmoDirection.X TransformKind.Plane ∈
      Gizmo.build_subgizmos ⟨false, false, true⟩ GizmoVisibility.default) ∧
    Gizmo.build_subgizmos ⟨false, false, true⟩
        { GizmoVisibility.default with
            scaling_plane := ⟨false, false, false, true⟩ } =
      Gizmo.build_subgizmos ⟨false, false, true⟩ GizmoVisibility.default :=
  ⟨((C10_scaling_plane_xyz_flags_unused ⟨false, false, true⟩
      GizmoVisibility.default GizmoDirection.X false false false).1
      (by decide)).mpr (by decide),
   (C10_scaling_plane_xyz_flags_unused ⟨false, false, true⟩
      GizmoVisibility.default GizmoDirection.X false false false).2⟩

/-! ## C8 -/

theorem any_id_eq_of_map (l : List SubGizmoState)
    (f : SubGizmoState → SubGizmoState) (hf : ∀ s, (f s).id = s.id)
    (i : Nat) :
    ((l.map f).any fun s => s.id = i) = (l.any fun s => s.id = i) := by
  induction l with
  | nil => rfl
  | cons s l ih => simp [List.any_cons, hf s, ih]

/-- C8, amended: for every interaction whose `dragging` flag is false,
`update` returns `None` (so the caller-supplied targets are not touched:
the only channel to updated transforms is the returned pair); and
provided the viewport is finite — and the recorded active id, as the
code maintains, refers to a subgizmo of the current collection, as does
any picked id — `active_subgizmo_id` is `None` after the call. -/
theorem C8_no_drag_returns_none (sn cs : ℚ → ℚ) (g : GizmoState)
    (interaction : GizmoInteraction) (targets : List Transform)
    (pick? : Option Nat) (upd? : Option GizmoResult)
    (hdrag : interaction.dragging = false)
    (hvp : g.config.config.viewport_is_finite = true)
    (hact : ∀ i, g.active_subgizmo_id = some i →
      (g.subgizmos.any fun s => s.id = i) = true)
    (hpick : ∀ i, pick? = some i →
      (g.subgizmos.any fun s => s.id = i) = true) :
    (Gizmo.update sn cs g interaction targets pick? upd?).2 = none ∧
    (Gizmo.update sn cs g interaction targets pick?
      upd?).1.active_subgizmo_id = none := by
  have e1 : ∀ (cfg : PreparedGizmoConfig) (l : List SubGizmoState) (i : Nat),
      ((l.map fun s => { s with cfg := cfg, focused := false }).any
        fun s => s.id = i) = (l.any fun s => s.id = i) :=
    fun cfg l i => any_id_eq_of_map l
      (fun s => { s with cfg := cfg, focused := false }) (fun _s => rfl) i
  have e2 : ∀ (pid : Nat) (l : List SubGizmoState) (i : Nat),
      ((l.map fun s => if s.id = pid then { s with focused := true } else s).any
        fun s => s.id = i) = (l.any fun s => s.id = i) :=
    fun pid l i => any_id_eq_of_map l
      (fun s => if s.id = pid then { s with focused := true } else s)
      (fun s => by by_cases h : s.id = pid <;> simp [h]) i
  unfold Gizmo.update
  rw [hvp]
  simp only [Bool.not_true, Bool.false_eq_true, if_false, hdrag]
  rcases hga : g.active_subgizmo_id with _ | i
  · simp only [hga, Option.isNone_none, if_true, Option.bind]
    rcases hpk : pick? with _ | pid
    · simp [hga]
    · cases hds : interaction.drag_started
      · simp [hga]
      · have hany := hpick pid hpk
        simp only [if_true, e1, e2, hany]
        simp
  · have hany := hact i hga
    simp only [hga, Option.isNone_some, if_false, Option.bind, e1, hany]
    simp

/-- One concrete subgizmo with id 0. -/
def subEx : SubGizmoState := ⟨0, cfgEx, false, false⟩

/-- A concrete orchestrator state in the middle of a drag gesture
(active id 0), with a finite viewport. -/
def gizmoExGood : GizmoState :=
  { config := cfgEx
    subgizmos := [subEx]
    active_subgizmo_id := some 0
    target_start_transforms := [tEx]
    gizmo_start_transform := tEx }

/-- Like `gizmoExGood` but after the host supplied a non-finite viewport
through `update_config`. -/
def gizmoExBadViewport : GizmoState :=
  { gizmoExGood with
      config := { cfgEx with
        config := { cfgEx.config with viewport_is_finite := false } } }

/-- C8, witness: the amended theorem applied to a concrete mid-drag state
with a finite viewport and a no-drag interaction. -/
theorem C8_no_drag_returns_none_witness :
    (Gizmo.update id id gizmoExGood ⟨false, false⟩ [tEx] (some 0)
      none).2 = none ∧
    (Gizmo.update id id gizmoExGood ⟨false, false⟩ [tEx] (some 0)
      none).1.active_subgizmo_id = none :=
  C8_no_drag_returns_none id id gizmoExGood ⟨false, false⟩ [tEx] (some 0) none
    rfl rfl
    (fun i hi => by
      have h2 : (some 0 : Option Nat) = some i := hi
      have h := Option.some.inj h2
      subst h
      decide)
    (fun i hi => by
      have h := Option.some.inj hi
      subst h
      decide)

/-- C8, counterexample to the claim as stated: in a mid-drag state whose
viewport has become non-finite, an `update` with `dragging = false`
still returns `None` but leaves `active_subgizmo_id` set, so the
gesture is not ended for *every* gizmo state. -/
theorem C8_counterexample :
    (Gizmo.update id id gizmoExBadViewport ⟨false, false⟩ [] none
      none).2 = none ∧
    (Gizmo.update id id gizmoExBadViewport ⟨false, false⟩ [] none
      none).1.active_subgizmo_id = some 0 := by
  decide

/-! ## C9 -/

/-- C9: draw-data concatenation appends the vertex and color buffers,
appends the right operand's indices rebased by the left operand's vertex
count (in `u32` arithmetic), and preserves index validity; it is
associative, with the empty draw data as identity (the left-identity law
uses that indices are `u32` values, `hwf`). -/
theorem C9_draw_data_concat {V C : Type} (a b c' : GizmoDrawData V C)
    (ha : a.valid) (hb : b.valid) (hwf : a.wf) :
    (a.add_assign b).vertices = a.vertices ++ b.vertices ∧
    (a.add_assign b).colors = a.colors ++ b.colors ∧
    (a.add_assign b).indices = a.indices ++ b.indices.map
      (fun idx => (a.vertices.length % 4294967296 + idx) % 4294967296) ∧
    (a.add_assign b).valid ∧
    (a.add_assign b).add_assign c' = a.add_assign (b.add_assign c') ∧
    GizmoDrawData.empty.add_assign a = a ∧
    a.add_assign GizmoDrawData.empty = a := by
  refine ⟨rfl, rfl, rfl, ?_, ?_, ?_, ?_⟩
  · intro i hi
    simp only [GizmoDrawData.add_assign, List.mem_append, List.mem_map] at hi
    simp only [GizmoDrawData.add_assign, List.length_append]
    rcases hi with h | ⟨j, hj, rfl⟩
    · exact lt_of_lt_of_le (ha i h) (Nat.le_add_right _ _)
    · have hjb := hb j hj
      omega
  · simp only [GizmoDrawData.add_assign, List.length_append, List.map_map,
      List.append_assoc, List.map_append, GizmoDrawData.mk.injEq]
    refine ⟨trivial, trivial, ?_⟩
    congr 1
    congr 1
    exact List.map_congr_left fun i _hi => by simp [Function.comp]; omega
  · cases a with
    | mk av ac ai =>
      simp only [GizmoDrawData.add_assign, GizmoDrawData.empty,
        List.nil_append, List.length_nil, GizmoDrawData.mk.injEq]
      refine ⟨trivial, trivial, ?_⟩
      have h0 : ∀ i ∈ ai, (0 % 4294967296 + i) % 4294967296 = i := by
        intro i hi
        have := hwf i hi
        omega
      rw [List.map_congr_left h0]
      simp
  · cases a with
    | mk av ac ai =>
      simp [GizmoDrawData.add_assign, GizmoDrawData.empty]

/-- A concrete draw-data value with two vertices. -/
def ddA : GizmoDrawData Unit Unit := ⟨[(), ()], [(), ()], [0, 1]⟩

/-- A concrete draw-data value with one vertex. -/
def ddB : GizmoDrawData Unit Unit := ⟨[()], [()], [0]⟩

/-- C9, witness: the theorem applied to concrete draw data; the rebased
merged index buffer is `[0, 1, 2]` and is valid for the three merged
vertices. -/
theorem C9_draw_data_concat_witness :
    ddA.valid ∧ ddB.valid ∧ ddA.wf ∧
    (ddA.add_assign ddB).valid ∧
    (ddA.add_assign ddB).indices = [0, 1, 2] :=
  ⟨by decide, by decide, by decide,
   (C9_draw_data_concat ddA ddB ddB (by decide) (by decide)
     (by decide)).2.2.2.1,
   by decide⟩

end TransformGizmo
